import Mathlib

/-!
Verification of the presentation-mapping logic of the cosmic battery applet
(`cosmic-applet-battery/src/app.rs`): the battery icon bucket ladder, the
screen-brightness bucket mapper, the duration formatter, and the message
handler `update` of `CosmicBatteryApplet`.

Rust `f64` values are modelled by the type `F64` below: an IEEE float is
either NaN, one of the two infinities, or a finite value, modelled as a
rational.  The code under verification performs no float arithmetic other
than `clamp` and comparisons against constants, so rationals are a faithful
carrier for the finite values.
-/

/-- Model of a Rust `f64`: NaN, +inf, -inf, or a finite value (as a rational). -/
inductive F64 where
  | nan : F64
  | inf : F64
  | ninf : F64
  | val : ℚ → F64
deriving DecidableEq

/-- `x > c` for a float `x` and a finite constant `c`: false whenever `x` is NaN. -/
def fgt : F64 → ℚ → Prop
  | F64.nan, _ => False
  | F64.inf, _ => True
  | F64.ninf, _ => False
  | F64.val q, c => c < q

instance (x : F64) (c : ℚ) : Decidable (fgt x c) :=
  match x with
  | F64.nan => isFalse (fun h => h)
  | F64.inf => isTrue trivial
  | F64.ninf => isFalse (fun h => h)
  | F64.val q => inferInstanceAs (Decidable (c < q))

/-- `x < c` for a float `x` and a finite constant `c`: false whenever `x` is NaN. -/
def flt : F64 → ℚ → Prop
  | F64.nan, _ => False
  | F64.inf, _ => False
  | F64.ninf, _ => True
  | F64.val q, c => q < c

instance (x : F64) (c : ℚ) : Decidable (flt x c) :=
  match x with
  | F64.nan => isFalse (fun h => h)
  | F64.inf => isFalse (fun h => h)
  | F64.ninf => isTrue trivial
  | F64.val q => inferInstanceAs (Decidable (q < c))

/-- Rust `f64::clamp(lo, hi)` with finite bounds `lo ≤ hi`: NaN is returned
unchanged, values below `lo` become `lo`, values above `hi` become `hi`. -/
def fclamp : F64 → ℚ → ℚ → F64
  | F64.nan, _, _ => F64.nan
  | F64.inf, _, hi => F64.val hi
  | F64.ninf, lo, _ => F64.val lo
  | F64.val q, lo, hi => F64.val (if q < lo then lo else if q > hi then hi else q)

/-- Modelled from the spec: `PowerProfile` enum `{Battery, Balanced, Performance}`
(the `power_daemon` module defining Rust's `Power` is not part of the sources). -/
inductive Power where
  | battery : Power
  | balanced : Power
  | performance : Power
deriving DecidableEq

/-- The state of `CosmicBatteryApplet` (app.rs lines 53-71), restricted to the
fields the reconciliation logic touches.  Channel senders are modelled by their
presence (a `Bool`); the GUI timeline and the iced core handle are omitted. -/
structure CosmicBatteryApplet where
  icon_name : String
  display_icon_name : String
  charging_limit : Bool
  battery_percent : F64
  on_battery : Bool
  time_remaining : Nat
  kbd_brightness : F64
  screen_brightness : F64
  popup : Option Nat
  id_ctr : Nat
  screen_sender : Bool
  kbd_sender : Bool
  power_profile : Power
  power_profile_sender : Bool

/-- The descending threshold ladder of `update_battery` (app.rs lines 78-96),
applied to the already-clamped stored percentage, exactly as in the source. -/
def battery_bucket (charging_limit : Bool) (battery_percent : F64) : Nat :=
  if fgt battery_percent 95 ∧ charging_limit = false then 100
  else if fgt battery_percent 80 ∧ charging_limit = false then 90
  else if fgt battery_percent 65 then 80
  else if fgt battery_percent 35 then 50
  else if fgt battery_percent 20 then 35
  else if fgt battery_percent 14 then 20
  else if fgt battery_percent 9 then 10
  else if fgt battery_percent 5 then 5
  else 0

/-- The icon identifier composed by `update_battery` (app.rs lines 97-100). -/
def iconCompose (bucket : Nat) (charging_limit : Bool) (on_battery : Bool) : String :=
  let limited := if charging_limit then "limited-" else ""
  let charging := if on_battery then "" else "charging-"
  "cosmic-applet-battery-level-" ++ toString bucket ++ "-" ++ limited ++ charging ++ "symbolic"

/-- `CosmicBatteryApplet::update_battery` (app.rs lines 74-101): clamp the
incoming percentage to `[0, 100]`, store it together with `on_battery`, and
recompute `icon_name` from the bucket ladder. -/
def update_battery (s : CosmicBatteryApplet) (percent : F64) (on_battery : Bool) :
    CosmicBatteryApplet :=
  { s with
    on_battery := on_battery
    battery_percent := fclamp percent 0 100
    icon_name :=
      iconCompose (battery_bucket s.charging_limit (fclamp percent 0 100))
        s.charging_limit on_battery }

/-- The qualitative brightness tier of `update_display` (app.rs lines 106-115),
applied to the already-clamped stored brightness, exactly as in the source. -/
def screen_tier (screen_brightness : F64) : String :=
  if flt screen_brightness (11/1000) then "off"
  else if flt screen_brightness (333/1000) then "low"
  else if flt screen_brightness (666/1000) then "medium"
  else "high"

/-- `CosmicBatteryApplet::update_display` (app.rs lines 103-119): clamp the
incoming brightness to `[0.01, 1.0]`, store it, and recompute
`display_icon_name` from the three-threshold tier. -/
def update_display (s : CosmicBatteryApplet) (percent : F64) : CosmicBatteryApplet :=
  { s with
    screen_brightness := fclamp percent (1/100) 1
    display_icon_name :=
      "cosmic-applet-battery-display-brightness-" ++
        screen_tier (fclamp percent (1/100) 1) ++ "-symbolic" }

/-- `CosmicBatteryApplet::set_charging_limit` (app.rs lines 121-124): store the
limit flag, then re-run `update_battery` on the stored battery values. -/
def set_charging_limit (s : CosmicBatteryApplet) (limit : Bool) : CosmicBatteryApplet :=
  update_battery { s with charging_limit := limit } s.battery_percent s.on_battery

/-- Zero-padding to two digits, as Rust's `format!(\x7b:02\x7d)` on a value `< 100`. -/
def pad2 (n : Nat) : String :=
  if n < 10 then "0" ++ toString n else toString n

/-- `format_duration` (app.rs lines 33-45).  The Rust function obtains the unit
suffixes from the `fl!` localization macro (whose message files are not part of
the sources), so the two suffixes are taken as parameters here. -/
def format_duration (minutesUnit secondsUnit : String) (secs : Nat) : String :=
  if secs > 60 then
    let min := secs / 60
    if min > 60 then
      toString (min / 60) ++ ":" ++ pad2 (min % 60)
    else
      toString min ++ minutesUnit
  else
    toString secs ++ secondsUnit

/-- The `Message` enum (app.rs lines 127-148), with channel senders and the
animation chain dropped (they carry no reconciliation state), `f64` payloads as
`F64`, and the slider payloads as `Int` (Rust `i32`). -/
inductive Message where
  | togglePopup : Message
  | update (on_battery : Bool) (percent : F64) (time_to_empty : Int) : Message
  | setKbdBrightness (brightness : Int) : Message
  | setScreenBrightness (brightness : Int) : Message
  | setChargingLimit (enable : Bool) : Message
  | updateKbdBrightness (b : F64) : Message
  | updateScreenBrightness (b : F64) : Message
  | openBatterySettings : Message
  | initKbdBacklight (brightness : F64) : Message
  | initScreenBacklight (brightness : F64) : Message
  | errored (e : String) : Message
  | initProfile (profile : Power) : Message
  | profile (profile : Power) : Message
  | selectProfile (profile : Power) : Message
  | frame : Message

/-- `CosmicBatteryApplet::update` (app.rs lines 176-278), restricted to its
effect on the modelled state.  Channel sends and popup commands are external
side effects and do not change the modelled fields beyond what is written
here; `Update`'s `time_to_empty as u64` cast wraps modulo `2^64`. -/
def update (s : CosmicBatteryApplet) (m : Message) : CosmicBatteryApplet :=
  match m with
  | Message.frame => s
  | Message.setKbdBrightness brightness =>
      { s with kbd_brightness := fclamp (F64.val ((brightness : ℚ) / 100)) 0 1 }
  | Message.setScreenBrightness brightness =>
      update_display s (fclamp (F64.val ((brightness : ℚ) / 100)) (1/100) 1)
  | Message.setChargingLimit enable => set_charging_limit s enable
  | Message.openBatterySettings => s
  | Message.errored _ => s
  | Message.togglePopup =>
      match s.popup with
      | some _ => { s with popup := none }
      | none => { s with id_ctr := s.id_ctr + 1, popup := some (s.id_ctr + 1) }
  | Message.update on_battery percent time_to_empty =>
      { update_battery s percent on_battery with
        time_remaining := (time_to_empty.emod (2 ^ 64)).toNat }
  | Message.updateKbdBrightness b => { s with kbd_brightness := b }
  | Message.initKbdBacklight brightness =>
      { s with kbd_sender := true, kbd_brightness := brightness }
  | Message.initScreenBacklight brightness =>
      update_display { s with screen_sender := true } brightness
  | Message.updateScreenBrightness b => update_display s b
  | Message.initProfile profile =>
      { s with power_profile_sender := true, power_profile := profile }
  | Message.profile profile => { s with power_profile := profile }
  | Message.selectProfile _ => s

/-- The state built by `init` (app.rs lines 156-166): named icon strings, all
other fields from `Default`. -/
def initState : CosmicBatteryApplet :=
  { icon_name := "battery-symbolic"
    display_icon_name := "display-brightness-symbolic"
    charging_limit := false
    battery_percent := F64.val 0
    on_battery := false
    time_remaining := 0
    kbd_brightness := F64.val 0
    screen_brightness := F64.val 0
    popup := none
    id_ctr := 0
    screen_sender := false
    kbd_sender := false
    power_profile := Power.battery
    power_profile_sender := false }

/-! Spec-side definitions, written from the specification's words, for the
refinement claims that compare the code against the spec's description. -/

/-- The spec's descending threshold ladder: thresholds
`(95,80,65,35,20,14,9,5)` paired with the buckets `(100,90,80,50,35,20,10,5)`,
the final bucket `0` being the default. -/
def ladder : List (ℚ × Nat) :=
  [(95, 100), (80, 90), (65, 80), (35, 50), (20, 35), (14, 20), (9, 10), (5, 5)]

/-- Walk a threshold ladder, selecting the bucket of the first satisfied
threshold, defaulting to `0`. -/
def firstSatisfied : List (ℚ × Nat) → ℚ → Nat
  | [], _ => 0
  | (t, b) :: rest, c => if t < c then b else firstSatisfied rest c

/-- Spec-side battery bucket: clamp the percentage to `[0,100]` and walk the
descending ladder; when `chargingLimitEnabled` the top two buckets `100` and
`90` are unavailable. -/
def bucket_ladder_spec (chargingLimitEnabled : Bool) (percent : ℚ) : Nat :=
  firstSatisfied (if chargingLimitEnabled then ladder.drop 2 else ladder)
    (min (max percent 0) 100)

/-- The bucket `update_battery` computes for a given incoming percentage:
the ladder applied to the clamped value (the composition performed by
`update_battery` itself). -/
def bucketOf (charging_limit : Bool) (percent : F64) : Nat :=
  battery_bucket charging_limit (fclamp percent 0 100)

/-- Spec-side brightness tier: clamp to `[0.01, 1.0]`, then the fixed
thresholds `0.011`, `0.333`, `0.666` separate off/low/medium/high. -/
def brightness_tier_spec (percent : ℚ) : String :=
  let c := min (max percent (1/100)) 1
  if c < 11/1000 then "off"
  else if c < 333/1000 then "low"
  else if c < 666/1000 then "medium"
  else "high"

/-- The tier `update_display` computes for a given incoming brightness. -/
def tierOf (percent : F64) : String :=
  screen_tier (fclamp percent (1/100) 1)

/-- The duration format with the boundaries the code actually uses (strict
`> 60`): "H:MM" when `secs / 60 > 60` (i.e. `secs ≥ 3660`), whole minutes plus
the minutes unit when `61 ≤ secs ≤ 3659`, whole seconds plus the seconds unit
when `secs ≤ 60`. -/
def format_duration_strict_spec (minutesUnit secondsUnit : String) (secs : Nat) : String :=
  if secs ≥ 3660 then
    toString (secs / 60 / 60) ++ ":" ++ pad2 (secs / 60 % 60)
  else if secs ≥ 61 then
    toString (secs / 60) ++ minutesUnit
  else
    toString secs ++ secondsUnit

/-! Substring containment, used to state which components an icon identifier
contains. -/

/-- Does `pat` occur at the very start of `s`? -/
def matchesHere : List Char → List Char → Bool
  | _, [] => true
  | [], _ :: _ => false
  | a :: as, b :: bs => (a == b) && matchesHere as bs

/-- Does `pat` occur anywhere in `s`? -/
def hasSubList : List Char → List Char → Bool
  | [], pat => matchesHere [] pat
  | s@(_ :: rest), pat => matchesHere s pat || hasSubList rest pat

/-- Does the string `pat` occur as a contiguous substring of `s`? -/
def strContainsSub (s pat : String) : Bool :=
  hasSubList s.data pat.data

/-! Range predicates for the brightness invariants, and the message
well-formedness side condition. -/

/-- The screen brightness range `[0.01, 1.0]` (only finite values qualify). -/
def screenInRange : F64 → Prop
  | F64.val q => 1/100 ≤ q ∧ q ≤ 1
  | _ => False

instance (x : F64) : Decidable (screenInRange x) :=
  match x with
  | F64.nan => isFalse (fun h => h)
  | F64.inf => isFalse (fun h => h)
  | F64.ninf => isFalse (fun h => h)
  | F64.val q => inferInstanceAs (Decidable (1/100 ≤ q ∧ q ≤ 1))

/-- The keyboard brightness range `[0, 1]` (only finite values qualify). -/
def kbdInRange : F64 → Prop
  | F64.val q => 0 ≤ q ∧ q ≤ 1
  | _ => False

instance (x : F64) : Decidable (kbdInRange x) :=
  match x with
  | F64.nan => isFalse (fun h => h)
  | F64.inf => isFalse (fun h => h)
  | F64.ninf => isFalse (fun h => h)
  | F64.val q => inferInstanceAs (Decidable (0 ≤ q ∧ q ≤ 1))

/-- The screen-brightness payload of a message is not NaN (an NaN payload
passes through `clamp` unchanged, so no clamping guarantee can hold for it). -/
def msgScreenSafe : Message → Prop
  | Message.updateScreenBrightness b => b ≠ F64.nan
  | Message.initScreenBacklight b => b ≠ F64.nan
  | _ => True

instance (m : Message) : Decidable (msgScreenSafe m) := by
  cases m <;> unfold msgScreenSafe <;> infer_instance

/-! Call sequences of the two battery-state mutators, for the icon-consistency
invariant. -/

/-- One call to a battery-state mutator: `update_battery` or
`set_charging_limit`. -/
inductive BatOp where
  | upd (percent : F64) (on_battery : Bool) : BatOp
  | setLimit (limit : Bool) : BatOp

/-- Whether the call is an `update_battery` call. -/
def BatOp.isUpd : BatOp → Bool
  | BatOp.upd _ _ => true
  | BatOp.setLimit _ => false

/-- Perform one mutator call. -/
def applyOp (s : CosmicBatteryApplet) : BatOp → CosmicBatteryApplet
  | BatOp.upd percent on_battery => update_battery s percent on_battery
  | BatOp.setLimit limit => set_charging_limit s limit

/-- Perform a sequence of mutator calls, left to right. -/
def runOps (s : CosmicBatteryApplet) : List BatOp → CosmicBatteryApplet
  | [] => s
  | op :: rest => runOps (applyOp s op) rest

/-- `icon_name` agrees with the pure battery-icon mapping applied to the
currently stored `battery_percent`, `on_battery` and `charging_limit`. -/
def IconConsistent (s : CosmicBatteryApplet) : Prop :=
  s.icon_name =
    iconCompose (bucketOf s.charging_limit s.battery_percent)
      s.charging_limit s.on_battery

/-! Helper lemmas. -/

theorem fclamp_val (q lo hi : ℚ) (h : lo ≤ hi) :
    fclamp (F64.val q) lo hi = F64.val (min (max q lo) hi) := by
  simp only [fclamp]
  congr 1
  split_ifs with h1 h2
  · rw [max_eq_right h1.le, min_eq_left h]
  · rw [max_eq_left (le_trans h h2.le), min_eq_right h2.le]
  · rw [max_eq_left (not_lt.mp h1), min_eq_left (not_lt.mp h2)]

theorem fclamp_idem (x : F64) (lo hi : ℚ) (h : lo ≤ hi) :
    fclamp (fclamp x lo hi) lo hi = fclamp x lo hi := by
  cases x with
  | nan => rfl
  | inf => simp [fclamp, h, not_lt.mpr h, lt_irrefl]
  | ninf => simp [fclamp, lt_irrefl, not_lt.mpr h]
  | val q =>
      simp only [fclamp]
      congr 1
      split_ifs <;> first | rfl | linarith

theorem fclamp_of_mem (q lo hi : ℚ) (h1 : lo ≤ q) (h2 : q ≤ hi) :
    fclamp (F64.val q) lo hi = F64.val q := by
  simp only [fclamp]
  rw [if_neg (not_lt.mpr h1), if_neg (not_lt.mpr h2)]

theorem battery_bucket_val_false (c : ℚ) :
    battery_bucket false (F64.val c) = firstSatisfied ladder c := by
  simp [battery_bucket, fgt, ladder, firstSatisfied]

theorem battery_bucket_val_true (c : ℚ) :
    battery_bucket true (F64.val c) = firstSatisfied (ladder.drop 2) c := by
  simp [battery_bucket, fgt, ladder, firstSatisfied]

theorem bucket_mem (l : Bool) (x : F64) :
    battery_bucket l x = 100 ∨ battery_bucket l x = 90 ∨ battery_bucket l x = 80 ∨
    battery_bucket l x = 50 ∨ battery_bucket l x = 35 ∨ battery_bucket l x = 20 ∨
    battery_bucket l x = 10 ∨ battery_bucket l x = 5 ∨ battery_bucket l x = 0 := by
  unfold battery_bucket
  split_ifs <;> simp

theorem tier_mem (x : F64) :
    screen_tier x = "off" ∨ screen_tier x = "low" ∨ screen_tier x = "medium" ∨
    screen_tier x = "high" := by
  unfold screen_tier
  split_ifs <;> simp

theorem screenInRange_fclamp (x : F64) (h : x ≠ F64.nan) :
    screenInRange (fclamp x (1/100) 1) := by
  cases x with
  | nan => exact absurd rfl h
  | inf => exact ⟨by norm_num, le_refl 1⟩
  | ninf => exact ⟨le_refl _, by norm_num⟩
  | val q =>
      simp only [fclamp, screenInRange]
      split_ifs <;> constructor <;> linarith

theorem kbdInRange_fclamp (x : F64) (h : x ≠ F64.nan) :
    kbdInRange (fclamp x 0 1) := by
  cases x with
  | nan => exact absurd rfl h
  | inf => exact ⟨by norm_num, le_refl 1⟩
  | ninf => exact ⟨le_refl _, by norm_num⟩
  | val q =>
      simp only [fclamp, kbdInRange]
      split_ifs <;> constructor <;> linarith

theorem val_ne_nan (q : ℚ) : F64.val q ≠ F64.nan :=
  fun h => F64.noConfusion h

theorem fclamp_val_ne_nan (q lo hi : ℚ) : fclamp (F64.val q) lo hi ≠ F64.nan :=
  fun h => F64.noConfusion h

theorem firstSatisfied_le (L : List (ℚ × Nat)) (B : Nat) (hB : ∀ x ∈ L, x.2 ≤ B)
    (c : ℚ) : firstSatisfied L c ≤ B := by
  induction L with
  | nil => simp [firstSatisfied]
  | cons a rest ih =>
      obtain ⟨t, b⟩ := a
      simp only [firstSatisfied]
      split_ifs
      · exact hB (t, b) (List.mem_cons_self _ _)
      · exact ih (fun x hx => hB x (List.mem_cons_of_mem _ hx))

theorem firstSatisfied_mono (L : List (ℚ × Nat))
    (hL : L.Pairwise (fun a b => b.2 ≤ a.2)) (c1 c2 : ℚ) (h : c1 ≤ c2) :
    firstSatisfied L c1 ≤ firstSatisfied L c2 := by
  induction L with
  | nil => simp [firstSatisfied]
  | cons a rest ih =>
      obtain ⟨t, b⟩ := a
      rw [List.pairwise_cons] at hL
      simp only [firstSatisfied]
      split_ifs with h1 h2
      · exact le_refl b
      · exact absurd (lt_of_lt_of_le h1 h) h2
      · exact firstSatisfied_le rest b (fun x hx => hL.1 x hx) c1
      · exact ih hL.2

/-- Every call to `update_battery` leaves the icon consistent with the stored
battery state. -/
theorem update_battery_consistent (s : CosmicBatteryApplet) (p : F64) (ob : Bool) :
    IconConsistent (update_battery s p ob) := by
  simp only [IconConsistent, update_battery, bucketOf]
  rw [fclamp_idem p 0 100 (by norm_num)]

/-! Claim theorems. -/

/-- C1: for every percent with `chargingLimitEnabled` false, the battery icon
bucket computed by `update_battery` is obtained by clamping percent to
`[0,100]` and walking the descending threshold ladder `(95,80,65,35,20,14,9,5)`,
selecting the first satisfied bucket from `(100,90,80,50,35,20,10,5,0)`; when
`chargingLimitEnabled` is true the top two buckets `100` and `90` are
unavailable; in particular percent `150` is treated as `100` and `-10` as `0`. -/
theorem battery_bucket_matches_ladder (q : ℚ) (l : Bool) :
    bucketOf l (F64.val q) = bucket_ladder_spec l q ∧
    bucketOf false (F64.val 150) = 100 ∧
    bucketOf false (F64.val (-10)) = 0 := by
  refine ⟨?_, by norm_num [bucketOf, fclamp, battery_bucket, fgt],
    by norm_num [bucketOf, fclamp, battery_bucket, fgt]⟩
  rw [bucketOf, fclamp_val q 0 100 (by norm_num), bucket_ladder_spec]
  rw [show min (max q 0) 100 = min (max q 0) 100 from rfl]
  cases l with
  | false => exact battery_bucket_val_false _
  | true => exact battery_bucket_val_true _

/-- C5: for every fixed `chargingLimitEnabled` and every pair of percents
`p1 ≤ p2` in `[0,100]`, the battery icon bucket of `p1` is at most the bucket
of `p2`. -/
theorem bucket_monotone (l : Bool) (p1 p2 : ℚ) (h0 : 0 ≤ p1) (h12 : p1 ≤ p2)
    (h100 : p2 ≤ 100) : bucketOf l (F64.val p1) ≤ bucketOf l (F64.val p2) := by
  rw [bucketOf, bucketOf, fclamp_of_mem p1 0 100 h0 (le_trans h12 h100),
    fclamp_of_mem p2 0 100 (le_trans h0 h12) h100]
  cases l with
  | false =>
      rw [battery_bucket_val_false, battery_bucket_val_false]
      exact firstSatisfied_mono ladder (by decide) p1 p2 h12
  | true =>
      rw [battery_bucket_val_true, battery_bucket_val_true]
      exact firstSatisfied_mono (ladder.drop 2) (by decide) p1 p2 h12

theorem bucket_monotone_witness :
    0 ≤ (10 : ℚ) ∧ (10 : ℚ) ≤ 90 ∧ (90 : ℚ) ≤ 100 ∧
    bucketOf false (F64.val 10) ≤ bucketOf false (F64.val 90) :=
  ⟨by norm_num, by norm_num, by norm_num,
    bucket_monotone false 10 90 (by norm_num) (by norm_num) (by norm_num)⟩

/-- C6: for every percent in `[0,100]`, when `chargingLimitEnabled` is true the
battery icon bucket computed by `update_battery` is at most `80`. -/
theorem bucket_le_80_when_limited (p : ℚ) (h0 : 0 ≤ p) (h1 : p ≤ 100) :
    bucketOf true (F64.val p) ≤ 80 := by
  rw [bucketOf, fclamp_of_mem p 0 100 h0 h1, battery_bucket_val_true]
  simp only [ladder, List.drop, firstSatisfied]
  split_ifs <;> norm_num

theorem bucket_le_80_when_limited_witness :
    0 ≤ (90 : ℚ) ∧ (90 : ℚ) ≤ 100 ∧ bucketOf true (F64.val 90) ≤ 80 :=
  ⟨by norm_num, by norm_num, bucket_le_80_when_limited 90 (by norm_num) (by norm_num)⟩

/-- C7: for every percent, `update_display` clamps it to `[0.01, 1.0]` and
derives the tier from the thresholds `0.011`, `0.333`, `0.666` (below `0.011`
off, below `0.333` low, below `0.666` medium, otherwise high); in particular
`0.005` gives off, `0.2` low, `0.5` medium, `0.9` high, and an input of `0` is
clamped to `0.01`. -/
theorem display_tier_matches_spec (p : ℚ) :
    tierOf (F64.val p) = brightness_tier_spec p ∧
    tierOf (F64.val (5/1000)) = "off" ∧
    tierOf (F64.val (2/10)) = "low" ∧
    tierOf (F64.val (1/2)) = "medium" ∧
    tierOf (F64.val (9/10)) = "high" ∧
    fclamp (F64.val 0) (1/100) 1 = F64.val (1/100) := by
  refine ⟨?_, by norm_num [tierOf, fclamp, screen_tier, flt],
    by norm_num [tierOf, fclamp, screen_tier, flt],
    by norm_num [tierOf, fclamp, screen_tier, flt],
    by norm_num [tierOf, fclamp, screen_tier, flt],
    by norm_num [fclamp]⟩
  rw [tierOf, fclamp_val p (1/100) 1 (by norm_num), brightness_tier_spec]
  simp only [screen_tier, flt]

/-- C2 counterexample: the claim's inclusive boundaries fail.  A duration of
exactly 60 seconds is at least 60 seconds, so the claim requires the minutes
form `"1" ++ minutesUnit`, but the code (`secs > 60`) produces the seconds
form; a duration of exactly 3600 seconds is at least 60 minutes, so the claim
requires `"1:00"`, but the code (`min > 60`) produces the minutes form. -/
theorem format_duration_boundary_counterexample :
    format_duration "m" "s" 60 = "60" ++ "s" ∧
    format_duration "m" "s" 60 ≠ "1" ++ "m" ∧
    format_duration "m" "s" 3600 = "60" ++ "m" ∧
    format_duration "m" "s" 3600 ≠ "1" ++ ":" ++ "00" := by
  refine ⟨by decide, by decide, by decide, by decide⟩

/-- C2 amended: `format_duration` uses strict boundaries: "H:MM" when
`secs / 60 > 60` (i.e. `secs ≥ 3660`), whole minutes plus the minutes unit
when `61 ≤ secs ≤ 3659`, and whole seconds plus the seconds unit when
`secs ≤ 60`. -/
theorem format_duration_strict_boundaries (mu su : String) (secs : Nat) :
    format_duration mu su secs = format_duration_strict_spec mu su secs := by
  unfold format_duration format_duration_strict_spec
  dsimp only
  split_ifs <;> first | rfl | omega

/-- C8: `format_duration` maps 3661 seconds to `"1:01"`, 90 seconds to `"1"`
plus the minutes unit, and 30 seconds to `"30"` plus the seconds unit. -/
theorem format_duration_examples (mu su : String) :
    format_duration mu su 3661 = "1:01" ∧
    format_duration mu su 90 = "1" ++ mu ∧
    format_duration mu su 30 = "30" ++ su := by
  refine ⟨rfl, rfl, rfl⟩

/-- C3 counterexample: with `onBattery = true` (and any percent, here 50), the
icon identifier contains no `"charging-"` component, contradicting the claim
that the component is present exactly when `onBattery` is true. -/
theorem charging_suffix_counterexample :
    (update_battery initState (F64.val 50) true).icon_name =
      "cosmic-applet-battery-level-50-symbolic" ∧
    strContainsSub (update_battery initState (F64.val 50) true).icon_name
      "charging-" = false := by
  have h : (update_battery initState (F64.val 50) true).icon_name =
      iconCompose 50 false true := by
    simp only [update_battery, initState]
    norm_num [battery_bucket, fgt, fclamp]
  constructor
  · rw [h]; decide
  · rw [h]; decide

/-- C3 amended: the icon identifier produced by `update_battery` contains the
`"charging-"` component exactly when `onBattery` is false (the suffix marks
the plugged-in, charging state), and contains the `"limited-"` component
exactly when `chargingLimitEnabled` is true. -/
theorem icon_suffix_iff (s : CosmicBatteryApplet) (p : F64) (ob : Bool) :
    (strContainsSub (update_battery s p ob).icon_name "charging-" = true ↔
      ob = false) ∧
    (strContainsSub (update_battery s p ob).icon_name "limited-" = true ↔
      s.charging_limit = true) := by
  have hicon : (update_battery s p ob).icon_name =
      iconCompose (battery_bucket s.charging_limit (fclamp p 0 100))
        s.charging_limit ob := rfl
  rw [hicon]
  rcases bucket_mem s.charging_limit (fclamp p 0 100) with h|h|h|h|h|h|h|h|h <;>
    rw [h] <;> cases ob <;> cases hcl : s.charging_limit <;> decide

/-- C4 counterexample: from a state whose brightness values are both in range,
handling `UpdateKbdBrightness(2.0)` stores `kbd_brightness = 2.0`, outside
`[0, 1]` — the handler does not clamp this message's payload. -/
theorem kbd_unclamped_counterexample :
    kbdInRange (update_display initState (F64.val (1/2))).kbd_brightness ∧
    screenInRange (update_display initState (F64.val (1/2))).screen_brightness ∧
    ¬ kbdInRange ((update (update_display initState (F64.val (1/2)))
        (Message.updateKbdBrightness (F64.val 2))).kbd_brightness) := by
  refine ⟨?_, ?_, ?_⟩ <;>
    norm_num [update, update_display, initState, fclamp, kbdInRange, screenInRange]

/-- C4 amended: if the stored screen brightness is in `[0.01, 1.0]` before a
message, it is again in `[0.01, 1.0]` after the handler processes any message
whose screen payload is not NaN; and `SetKbdBrightness` always leaves
`kbd_brightness` in `[0, 1]`.  (`UpdateKbdBrightness` and `InitKbdBacklight`
store their payload unclamped, so no such guarantee holds for them.) -/
theorem screen_brightness_invariant (s : CosmicBatteryApplet) (m : Message)
    (hs : screenInRange s.screen_brightness) (hm : msgScreenSafe m) :
    screenInRange (update s m).screen_brightness ∧
    (∀ b : Int, m = Message.setKbdBrightness b →
      kbdInRange (update s m).kbd_brightness) := by
  cases m with
  | togglePopup =>
      refine ⟨?_, fun b h => Message.noConfusion h⟩
      simp only [update]
      cases s.popup <;> exact hs
  | update ob p tte => exact ⟨hs, fun b h => Message.noConfusion h⟩
  | setKbdBrightness b =>
      refine ⟨hs, fun b' h => ?_⟩
      show kbdInRange (fclamp (F64.val ((b : ℚ) / 100)) 0 1)
      exact kbdInRange_fclamp _ (val_ne_nan _)
  | setScreenBrightness b =>
      refine ⟨?_, fun b' h => Message.noConfusion h⟩
      show screenInRange
        (fclamp (fclamp (F64.val ((b : ℚ) / 100)) (1/100) 1) (1/100) 1)
      exact screenInRange_fclamp _ (fclamp_val_ne_nan _ _ _)
  | setChargingLimit e => exact ⟨hs, fun b h => Message.noConfusion h⟩
  | updateKbdBrightness b => exact ⟨hs, fun b' h => Message.noConfusion h⟩
  | updateScreenBrightness b =>
      exact ⟨screenInRange_fclamp b hm, fun b' h => Message.noConfusion h⟩
  | openBatterySettings => exact ⟨hs, fun b h => Message.noConfusion h⟩
  | initKbdBacklight b => exact ⟨hs, fun b' h => Message.noConfusion h⟩
  | initScreenBacklight b =>
      exact ⟨screenInRange_fclamp b hm, fun b' h => Message.noConfusion h⟩
  | errored e => exact ⟨hs, fun b h => Message.noConfusion h⟩
  | initProfile pr => exact ⟨hs, fun b h => Message.noConfusion h⟩
  | profile pr => exact ⟨hs, fun b h => Message.noConfusion h⟩
  | selectProfile pr => exact ⟨hs, fun b h => Message.noConfusion h⟩
  | frame => exact ⟨hs, fun b h => Message.noConfusion h⟩

theorem screen_brightness_invariant_witness :
    screenInRange ((update (update_display initState (F64.val (1/2)))
      Message.frame).screen_brightness) :=
  (screen_brightness_invariant (update_display initState (F64.val (1/2)))
    Message.frame
    (by norm_num [update_display, initState, fclamp, screenInRange]) trivial).1

/-- C9: the two mappers are total: for every float input — NaN, infinities and
out-of-range values included — `update_battery` produces an icon identifier
composed from one of the nine buckets, and `update_display` produces one of
the four brightness icon identifiers. -/
theorem mappers_total (s : CosmicBatteryApplet) (x p : F64) (ob : Bool) :
    (∃ b, (b = 100 ∨ b = 90 ∨ b = 80 ∨ b = 50 ∨ b = 35 ∨ b = 20 ∨ b = 10 ∨
        b = 5 ∨ b = 0) ∧
      (update_battery s x ob).icon_name = iconCompose b s.charging_limit ob) ∧
    ((update_display s p).display_icon_name =
        "cosmic-applet-battery-display-brightness-off-symbolic" ∨
      (update_display s p).display_icon_name =
        "cosmic-applet-battery-display-brightness-low-symbolic" ∨
      (update_display s p).display_icon_name =
        "cosmic-applet-battery-display-brightness-medium-symbolic" ∨
      (update_display s p).display_icon_name =
        "cosmic-applet-battery-display-brightness-high-symbolic") := by
  constructor
  · exact ⟨battery_bucket s.charging_limit (fclamp x 0 100),
      bucket_mem s.charging_limit (fclamp x 0 100), rfl⟩
  · have hd : (update_display s p).display_icon_name =
        "cosmic-applet-battery-display-brightness-" ++
          screen_tier (fclamp p (1/100) 1) ++ "-symbolic" := rfl
    rcases tier_mem (fclamp p (1/100) 1) with h|h|h|h <;> rw [hd, h]
    · exact Or.inl rfl
    · exact Or.inr (Or.inl rfl)
    · exact Or.inr (Or.inr (Or.inl rfl))
    · exact Or.inr (Or.inr (Or.inr rfl))

theorem applyOp_consistent (s : CosmicBatteryApplet) (op : BatOp) :
    IconConsistent (applyOp s op) := by
  cases op with
  | upd p ob => exact update_battery_consistent s p ob
  | setLimit l =>
      exact update_battery_consistent { s with charging_limit := l }
        s.battery_percent s.on_battery

theorem runOps_consistent_of_consistent (ops : List BatOp)
    (s : CosmicBatteryApplet) (h : IconConsistent s) :
    IconConsistent (runOps s ops) := by
  induction ops generalizing s with
  | nil => exact h
  | cons op rest ih => exact ih (applyOp s op) (applyOp_consistent s op)

/-- C10: after any sequence of `update_battery` and `set_charging_limit` calls
containing at least one `update_battery`, `icon_name` equals the pure
battery-icon mapping applied to the stored `battery_percent`, `on_battery` and
`charging_limit`; in particular `set_charging_limit` re-derives the icon from
the stored battery values. -/
theorem icon_consistent_after_ops (s : CosmicBatteryApplet) (ops : List BatOp)
    (h : ops.any BatOp.isUpd = true) : IconConsistent (runOps s ops) := by
  cases ops with
  | nil => simp at h
  | cons op rest =>
      exact runOps_consistent_of_consistent rest (applyOp s op)
        (applyOp_consistent s op)

theorem icon_consistent_after_ops_witness :
    IconConsistent (runOps initState [BatOp.upd (F64.val 50) true]) :=
  icon_consistent_after_ops initState [BatOp.upd (F64.val 50) true] rfl
